import Mathlib

/-!
Verification of the KlimaLogg weather-console driver (kl.py and the sibling
driver luc/ws28xx_lheijst13.py) against its natural-language specification.

The Python source is shallowly embedded: buffers passed as one-element lists
([buf]) in Python become plain lists of bytes (List Nat), in-place container
mutation becomes value passing, machine arithmetic is Nat or Int with explicit
masking exactly where the source masks, and exceptions become an explicit
outcome type.  Decimal sensor values (temperatures, with one decimal digit)
are modelled exactly over the rationals.

Namespace KL embeds kl.py; namespace WS embeds luc/ws28xx_lheijst13.py.
-/

namespace KL

/-- Read a byte of a frame buffer.  Python indexing raises on out-of-range
access; every access performed by the embedded functions is in range for the
frame lengths at which they are invoked (the transport hands over a 0x131-byte
scratch list), so a total default-0 read is used. -/
def byteAt (buf : List Nat) (i : Nat) : Nat :=
  buf.getD i 0

/-- Write a byte of a frame buffer (Python: buf[0][i] = v). -/
def setByte (buf : List Nat) (i v : Nat) : List Nat :=
  buf.set i v

/-- Source kl.py calc_checksum: cs = 0; for i in xrange(0, end): cs += buf[0][i+start].
The optional second argument is a count of bytes (end defaults to
len(buf[0]) - start). -/
def calc_checksum (buf : List Nat) (start : Nat) (endv : Option Nat) : Nat :=
  let e := endv.getD (buf.length - start)
  (List.range e).foldl (fun cs i => cs + byteAt buf (i + start)) 0

/-- Source kl.py: KlimaLoggDriver.max_records = 60000. -/
def max_records : Nat := 60000

/-- Source kl.py bytes_to_addr(a, b, c) = (((a << 8) | b) << 8) | c. -/
def bytes_to_addr (a b c : Nat) : Nat :=
  (((a <<< 8) ||| b) <<< 8) ||| c

/-- Source kl.py addr_to_index(addr) = (addr - 0x070000) / 32, Python 2 integer
division (floor). -/
def addr_to_index (addr : Int) : Int :=
  (addr - 0x070000).fdiv 32

/-- Source kl.py index_to_addr(idx) = 32 * idx + 0x070000. -/
def index_to_addr (idx : Int) : Int :=
  32 * idx + 0x070000

/-- Source kl.py StationConfig.read: returns the pair
(_InBufCS, _OutBufCS) = ((buf[46] << 8) | buf[47], calc_checksum(buf, 4, end=116) + 7). -/
def StationConfig_read (buf : List Nat) : Nat × Nat :=
  (((byteAt buf 46) <<< 8) ||| byteAt buf 47, calc_checksum buf 4 (some 116) + 7)

end KL

namespace KL

theorem calc_checksum_eq_sum (buf : List Nat) (start e : Nat) :
    calc_checksum buf start (some e) = ∑ i ∈ Finset.range e, byteAt buf (start + i) := by
  unfold calc_checksum
  simp only [Option.getD_some]
  induction e with
  | zero => simp
  | succ n ih =>
      rw [Finset.sum_range_succ, ← ih, List.range_succ, List.foldl_append]
      simp [Nat.add_comm]

end KL

namespace KL

theorem byteAt_lt :
    ∀ (buf : List Nat), (∀ b ∈ buf, b < 256) → ∀ i, byteAt buf i < 256
  | [], _, _ => by simp [byteAt]
  | b :: _, hb, 0 => by simpa [byteAt] using hb b (by simp)
  | _ :: t, hb, (i + 1) => by
      simpa [byteAt] using byteAt_lt t (fun x hx => hb x (by simp [hx])) i

theorem shiftLeft8_or_eq (a b : Nat) (hb : b < 256) : (a <<< 8) ||| b = 256 * a + b := by
  have h := Nat.mul_add_lt_is_or (b := b) (i := 8) (by simpa using hb) a
  rw [Nat.shiftLeft_eq, Nat.mul_comm a (2 ^ 8), ← h]

theorem and255_eq_mod (x : Nat) : x &&& 255 = x % 256 := by
  have h := Nat.and_pow_two_sub_one_eq_mod x 8
  norm_num at h
  exact h

theorem and15_eq_mod (x : Nat) : x &&& 15 = x % 16 := by
  have h := Nat.and_pow_two_sub_one_eq_mod x 4
  norm_num at h
  exact h

theorem shiftRight_and255 (x k : Nat) : (x >>> k) &&& 255 = x / 2 ^ k % 256 := by
  rw [Nat.shiftRight_eq_div_pow, and255_eq_mod]

end KL

/-- C5: for every address a in [0x070000, 0x070000 + 32 * 60000) with
(a - 0x070000) divisible by 32, converting the address to an index and back is
the identity: index_to_addr (addr_to_index a) = a. -/
theorem C5_addr_index_roundtrip (a : Int) (h1 : 0x070000 ≤ a)
    (h2 : a < 0x070000 + 32 * 60000) (h3 : (a - 0x070000) % 32 = 0) :
    KL.index_to_addr (KL.addr_to_index a) = a := by
  unfold KL.index_to_addr KL.addr_to_index
  obtain ⟨k, hk⟩ : (32 : Int) ∣ (a - 0x070000) := Int.dvd_of_emod_eq_zero h3
  rw [hk, Int.mul_fdiv_cancel_left _ (by norm_num)]
  omega

/-- Witness for C5 at the concrete address 0x070020. -/
theorem C5_addr_index_roundtrip_witness :
    KL.index_to_addr (KL.addr_to_index 0x070020) = 0x070020 :=
  C5_addr_index_roundtrip 0x070020 (by decide) (by decide) (by decide)

/-- C3 counterexample: on the 125-byte config frame that is all zero except a 1
at index 119, StationConfig.read computes out-buffer checksum 7 + 1 = 8 (the
code sums the 116 bytes at indices 4..119), while the claim's formula
7 + (sum of the bytes at indices 4 through 115) gives 7. -/
theorem C3_counterexample :
    (KL.StationConfig_read ((List.replicate 125 0).set 119 1)).2 ≠
      7 + ∑ i ∈ Finset.range 112, KL.byteAt ((List.replicate 125 0).set 119 1) (4 + i) := by
  decide

/-- C3 (amended): for every config frame processed by StationConfig.read with
byte values below 256, the out-buffer checksum equals 7 plus the sum of the
frame bytes at indices 4 through 119 (the 116 bytes starting at index 4), and
the in-buffer checksum equals the bytes at indices 46 and 47 read as a
big-endian 16-bit value. -/
theorem C3_config_checksums (buf : List Nat) (hb : ∀ b ∈ buf, b < 256) :
    (KL.StationConfig_read buf).2 = 7 + ∑ i ∈ Finset.range 116, KL.byteAt buf (4 + i) ∧
    (KL.StationConfig_read buf).1 = 256 * KL.byteAt buf 46 + KL.byteAt buf 47 := by
  constructor
  · show KL.calc_checksum buf 4 (some 116) + 7 = _
    rw [KL.calc_checksum_eq_sum]
    omega
  · exact KL.shiftLeft8_or_eq _ _ (KL.byteAt_lt buf hb 47)

/-- Witness for C3 at the all-zero 125-byte frame. -/
theorem C3_config_checksums_witness :
    (KL.StationConfig_read (List.replicate 125 0)).2 =
      7 + ∑ i ∈ Finset.range 116, KL.byteAt (List.replicate 125 0) (4 + i) ∧
    (KL.StationConfig_read (List.replicate 125 0)).1 =
      256 * KL.byteAt (List.replicate 125 0) 46 + KL.byteAt (List.replicate 125 0) 47 :=
  C3_config_checksums (List.replicate 125 0) (by decide)

namespace KL

/-- High nibble of a buffer byte (Python: buf[0][i] >> 4). -/
def hiNib (buf : List Nat) (i : Nat) : Nat :=
  (byteAt buf i) >>> 4

/-- Low nibble of a buffer byte (Python: buf[0][i] & 0xF). -/
def loNib (buf : List Nat) (i : Nat) : Nat :=
  (byteAt buf i) &&& 0xF

/-- Source kl.py SensorLimits.temperature_offset. -/
def temperature_offset : ℚ := 40.0

/-- Source kl.py SensorLimits.temperature_NP (sensor not present sentinel). -/
def temperature_NP : ℚ := 81.1

/-- Source kl.py SensorLimits.temperature_OFL (outside factory limits sentinel). -/
def temperature_OFL : ℚ := 136.0

/-- Source kl.py USBHardware.isOFL3: some of the three nibbles equals 15. -/
def isOFL3 (buf : List Nat) (start : Nat) (startOnHiNibble : Bool) : Bool :=
  if startOnHiNibble then
    decide (hiNib buf start = 15 ∨ loNib buf start = 15 ∨ hiNib buf (start + 1) = 15)
  else
    decide (loNib buf start = 15 ∨ hiNib buf (start + 1) = 15 ∨ loNib buf (start + 1) = 15)

/-- Source kl.py USBHardware.isErr3: some of the three nibbles is at least 10
and differs from 15. -/
def isErr3 (buf : List Nat) (start : Nat) (startOnHiNibble : Bool) : Bool :=
  if startOnHiNibble then
    decide ((10 ≤ hiNib buf start ∧ hiNib buf start ≠ 15) ∨
      (10 ≤ loNib buf start ∧ loNib buf start ≠ 15) ∨
      (10 ≤ hiNib buf (start + 1) ∧ hiNib buf (start + 1) ≠ 15))
  else
    decide ((10 ≤ loNib buf start ∧ loNib buf start ≠ 15) ∨
      (10 ≤ hiNib buf (start + 1) ∧ hiNib buf (start + 1) ≠ 15) ∨
      (10 ≤ loNib buf (start + 1) ∧ loNib buf (start + 1) ≠ 15))

/-- Source kl.py USBHardware.isErr8: the eight nibbles form the exact error
pattern 10,10,4,10,10,4,10,10 (in read order for the given alignment). -/
def isErr8 (buf : List Nat) (start : Nat) (startOnHiNibble : Bool) : Bool :=
  if startOnHiNibble then
    decide (hiNib buf start = 10 ∧ loNib buf start = 10 ∧
      hiNib buf (start + 1) = 4 ∧ loNib buf (start + 1) = 10 ∧
      hiNib buf (start + 2) = 10 ∧ loNib buf (start + 2) = 4 ∧
      hiNib buf (start + 3) = 10 ∧ loNib buf (start + 3) = 10)
  else
    decide (loNib buf start = 10 ∧ hiNib buf (start + 1) = 10 ∧
      loNib buf (start + 1) = 4 ∧ hiNib buf (start + 2) = 10 ∧
      loNib buf (start + 2) = 10 ∧ hiNib buf (start + 3) = 4 ∧
      loNib buf (start + 3) = 10 ∧ hiNib buf (start + 4) = 10)

/-- Source kl.py USBHardware.toInt_1: read one nibble. -/
def toInt_1 (buf : List Nat) (start : Nat) (startOnHiNibble : Bool) : Nat :=
  if startOnHiNibble then hiNib buf start else loNib buf start

/-- Source kl.py USBHardware.toInt_2: read two adjacent nibbles as a two-digit
decimal. -/
def toInt_2 (buf : List Nat) (start : Nat) (startOnHiNibble : Bool) : Nat :=
  if startOnHiNibble then hiNib buf start * 10 + loNib buf start
  else loNib buf start * 10 + hiNib buf (start + 1)

/-- Source kl.py USBHardware.toTemperature_3_1: three nibbles as XX.X minus the
offset 40, in degrees Celsius; NP on the error pattern, OFL on overflow.
Decimal arithmetic is modelled exactly over the rationals. -/
def toTemperature_3_1 (buf : List Nat) (start : Nat) (startOnHiNibble : Bool) : ℚ :=
  if isErr3 buf start startOnHiNibble then temperature_NP
  else if isOFL3 buf start startOnHiNibble then temperature_OFL
  else
    let rawtemp : ℚ :=
      if startOnHiNibble then
        (hiNib buf start : ℚ) * 10 + (loNib buf start : ℚ) * 1 +
          (hiNib buf (start + 1) : ℚ) * 0.1
      else
        (loNib buf start : ℚ) * 10 + (hiNib buf (start + 1) : ℚ) * 1 +
          (loNib buf (start + 1) : ℚ) * 0.1
    rawtemp - temperature_offset

/-- Calendar date-time as produced by the Python datetime constructor. -/
structure PyDateTime where
  year : Nat
  month : Nat
  day : Nat
  hour : Nat
  minute : Nat
  deriving DecidableEq, Repr

/-- Gregorian leap-year rule used by the Python datetime module. -/
def isLeapYear (y : Nat) : Bool :=
  y % 4 = 0 && (y % 100 != 0 || y % 400 = 0)

/-- Number of days of a month, as enforced by the Python datetime constructor. -/
def daysInMonth (y m : Nat) : Nat :=
  if m = 1 then 31 else if m = 2 then (if isLeapYear y then 29 else 28)
  else if m = 3 then 31 else if m = 4 then 30 else if m = 5 then 31
  else if m = 6 then 30 else if m = 7 then 31 else if m = 8 then 31
  else if m = 9 then 30 else if m = 10 then 31 else if m = 11 then 30
  else if m = 12 then 31 else 0

/-- Range checks of the Python datetime constructor; datetime(y,m,d,h,mi)
raises ValueError exactly when this is false. -/
def validDateTime (y m d h mi : Nat) : Bool :=
  decide (1 ≤ y ∧ y ≤ 9999 ∧ 1 ≤ m ∧ m ≤ 12 ∧ 1 ≤ d ∧ d ≤ daysInMonth y m ∧
    h ≤ 23 ∧ mi ≤ 59)

/-- Source kl.py USBHardware.toDateTime8: read 8 nibbles as a compact
date-time.  The source returns the marker datetime(1900,1,1,0,0) both on the
isErr8 pattern and when the decoded fields do not form a valid date (its
FIXME comment says the marker indicates invalid); the absent marker is
modelled as none. -/
def toDateTime8 (buf : List Nat) (start : Nat) (startOnHiNibble : Bool) :
    Option PyDateTime :=
  if isErr8 buf start startOnHiNibble then none
  else
    let year := (if startOnHiNibble then toInt_2 buf start true
      else toInt_2 buf start false) + 2000
    let month := if startOnHiNibble then toInt_1 buf (start + 1) true
      else toInt_1 buf (start + 1) false
    let days := if startOnHiNibble then toInt_2 buf (start + 1) false
      else toInt_2 buf (start + 2) true
    let tim1 := if startOnHiNibble then toInt_1 buf (start + 2) false
      else toInt_1 buf (start + 3) true
    let tim2 := if startOnHiNibble then toInt_1 buf (start + 3) true
      else toInt_1 buf (start + 3) false
    let tim3 := if startOnHiNibble then toInt_1 buf (start + 3) false
      else toInt_1 buf (start + 4) true
    let hours0 := if 10 ≤ tim1 then tim1 + 10 else tim1
    let hours := if 10 ≤ tim2 then hours0 + 10 else hours0
    let minutes0 := if 10 ≤ tim2 then (tim2 - 10) * 10 else tim2 * 10
    let minutes := minutes0 + tim3
    if validDateTime year month days hours minutes then
      some ⟨year, month, days, hours, minutes⟩
    else none

/-- Source kl.py CurrentData.BUFMAP: per-channel byte offsets of
(maxVal, minVal, curVal, maxTS, minTS, humMax, humMin, humCur, humMaxTS,
humMinTS) inside a current-weather frame. -/
def BUFMAP : Nat → List Nat
  | 0 => [26, 28, 29, 18, 22, 15, 16, 17, 7, 11]
  | 1 => [50, 52, 53, 42, 46, 39, 40, 41, 31, 35]
  | 2 => [74, 76, 77, 66, 70, 63, 64, 65, 55, 59]
  | 3 => [98, 100, 101, 90, 94, 87, 88, 89, 79, 83]
  | 4 => [122, 124, 125, 114, 118, 111, 112, 113, 103, 107]
  | 5 => [146, 148, 149, 138, 142, 135, 136, 137, 127, 131]
  | 6 => [170, 172, 173, 162, 166, 159, 160, 161, 151, 155]
  | 7 => [194, 196, 197, 186, 190, 183, 184, 185, 175, 179]
  | 8 => [218, 220, 221, 210, 214, 207, 208, 209, 199, 203]
  | _ => []

/-- Source kl.py CurrentData.read: the channel-x maximum temperature,
toTemperature_3_1(buf, BUFMAP[x][0], 0). -/
def currentTempMax (buf : List Nat) (x : Nat) : ℚ :=
  toTemperature_3_1 buf ((BUFMAP x).getD 0 0) false

/-- Source kl.py CurrentData.read: the channel-x minimum temperature,
toTemperature_3_1(buf, BUFMAP[x][1], 1). -/
def currentTempMin (buf : List Nat) (x : Nat) : ℚ :=
  toTemperature_3_1 buf ((BUFMAP x).getD 1 0) true

/-- Source kl.py CurrentData.read: the channel-x current temperature,
toTemperature_3_1(buf, BUFMAP[x][2], 0). -/
def currentTemp (buf : List Nat) (x : Nat) : ℚ :=
  toTemperature_3_1 buf ((BUFMAP x).getD 2 0) false

end KL

namespace KL

theorem hiNib_le (buf : List Nat) (hb : ∀ b ∈ buf, b < 256) (i : Nat) :
    hiNib buf i ≤ 15 := by
  unfold hiNib
  rw [Nat.shiftRight_eq_div_pow]
  have h := byteAt_lt buf hb i
  omega

theorem loNib_le (buf : List Nat) (i : Nat) : loNib buf i ≤ 15 := by
  unfold loNib
  rw [show (0xF : Nat) = 15 from rfl, and15_eq_mod]
  omega

theorem toTemperature_range (buf : List Nat) (hb : ∀ b ∈ buf, b < 256)
    (start : Nat) (hi : Bool)
    (he : isErr3 buf start hi = false) (ho : isOFL3 buf start hi = false) :
    -40 ≤ toTemperature_3_1 buf start hi ∧ toTemperature_3_1 buf start hi ≤ 96 := by
  unfold toTemperature_3_1
  rw [he, ho]
  simp only [Bool.false_eq_true, if_false]
  unfold isErr3 at he
  unfold isOFL3 at ho
  cases hi with
  | false =>
      simp only [Bool.false_eq_true, if_false, decide_eq_false_iff_not, not_or,
        not_and_or, not_le, not_not] at he ho
      have b1 : loNib buf start ≤ 9 := by
        have h15 := loNib_le buf start
        rcases he.1 with h | h
        · omega
        · exact absurd h ho.1
      have b2 : hiNib buf (start + 1) ≤ 9 := by
        have h15 := hiNib_le buf hb (start + 1)
        rcases he.2.1 with h | h
        · omega
        · exact absurd h ho.2.1
      have b3 : loNib buf (start + 1) ≤ 9 := by
        have h15 := loNib_le buf (start + 1)
        rcases he.2.2 with h | h
        · omega
        · exact absurd h ho.2.2
      have q1 : (loNib buf start : ℚ) ≤ 9 := by exact_mod_cast Nat.cast_le.mpr b1
      have q2 : (hiNib buf (start + 1) : ℚ) ≤ 9 := by exact_mod_cast Nat.cast_le.mpr b2
      have q3 : (loNib buf (start + 1) : ℚ) ≤ 9 := by exact_mod_cast Nat.cast_le.mpr b3
      have q1n : (0 : ℚ) ≤ (loNib buf start : ℚ) := by positivity
      have q2n : (0 : ℚ) ≤ (hiNib buf (start + 1) : ℚ) := by positivity
      have q3n : (0 : ℚ) ≤ (loNib buf (start + 1) : ℚ) := by positivity
      unfold temperature_offset
      simp only [Bool.false_eq_true, if_false]
      constructor <;> nlinarith
  | true =>
      simp only [if_true, decide_eq_false_iff_not, not_or,
        not_and_or, not_le, not_not] at he ho
      have b1 : hiNib buf start ≤ 9 := by
        have h15 := hiNib_le buf hb start
        rcases he.1 with h | h
        · omega
        · exact absurd h ho.1
      have b2 : loNib buf start ≤ 9 := by
        have h15 := loNib_le buf start
        rcases he.2.1 with h | h
        · omega
        · exact absurd h ho.2.1
      have b3 : hiNib buf (start + 1) ≤ 9 := by
        have h15 := hiNib_le buf hb (start + 1)
        rcases he.2.2 with h | h
        · omega
        · exact absurd h ho.2.2
      have q1 : (hiNib buf start : ℚ) ≤ 9 := by exact_mod_cast Nat.cast_le.mpr b1
      have q2 : (loNib buf start : ℚ) ≤ 9 := by exact_mod_cast Nat.cast_le.mpr b2
      have q3 : (hiNib buf (start + 1) : ℚ) ≤ 9 := by exact_mod_cast Nat.cast_le.mpr b3
      have q1n : (0 : ℚ) ≤ (hiNib buf start : ℚ) := by positivity
      have q2n : (0 : ℚ) ≤ (loNib buf start : ℚ) := by positivity
      have q3n : (0 : ℚ) ≤ (hiNib buf (start + 1) : ℚ) := by positivity
      unfold temperature_offset
      simp only [if_true]
      constructor <;> nlinarith

theorem toTemperature_of_err (buf : List Nat) (start : Nat) (hi : Bool)
    (he : isErr3 buf start hi = true) :
    toTemperature_3_1 buf start hi = temperature_NP := by
  unfold toTemperature_3_1
  rw [he]
  simp

theorem toTemperature_of_ofl (buf : List Nat) (start : Nat) (hi : Bool)
    (he : isErr3 buf start hi = false) (ho : isOFL3 buf start hi = true) :
    toTemperature_3_1 buf start hi = temperature_OFL := by
  unfold toTemperature_3_1
  rw [he, ho]
  simp

theorem toTemperature_cases (buf : List Nat) (hb : ∀ b ∈ buf, b < 256)
    (start : Nat) (hi : Bool) :
    toTemperature_3_1 buf start hi = temperature_NP ∨
    toTemperature_3_1 buf start hi = temperature_OFL ∨
    (-40 ≤ toTemperature_3_1 buf start hi ∧ toTemperature_3_1 buf start hi ≤ 96) := by
  cases he : isErr3 buf start hi with
  | true => exact Or.inl (toTemperature_of_err buf start hi he)
  | false =>
      cases ho : isOFL3 buf start hi with
      | true => exact Or.inr (Or.inl (toTemperature_of_ofl buf start hi he ho))
      | false => exact Or.inr (Or.inr (toTemperature_range buf hb start hi he ho))

end KL

/-- C4: for every current-weather frame buffer (bytes below 256) and every
channel 0..8, each decoded temperature value (current, minimum, maximum) is
the NP sentinel 81.1, the OFL sentinel 136.0, or lies in [-40, 96]; and a
sentinel-producing nibble pattern yields exactly the corresponding sentinel,
never an in-range number. -/
theorem C4_temperature_range (buf : List Nat) (hb : ∀ b ∈ buf, b < 256)
    (x : Nat) (hx : x < 9) :
    (KL.currentTempMax buf x = KL.temperature_NP ∨
     KL.currentTempMax buf x = KL.temperature_OFL ∨
     (-40 ≤ KL.currentTempMax buf x ∧ KL.currentTempMax buf x ≤ 96)) ∧
    (KL.currentTempMin buf x = KL.temperature_NP ∨
     KL.currentTempMin buf x = KL.temperature_OFL ∨
     (-40 ≤ KL.currentTempMin buf x ∧ KL.currentTempMin buf x ≤ 96)) ∧
    (KL.currentTemp buf x = KL.temperature_NP ∨
     KL.currentTemp buf x = KL.temperature_OFL ∨
     (-40 ≤ KL.currentTemp buf x ∧ KL.currentTemp buf x ≤ 96)) ∧
    (∀ start hi, KL.isErr3 buf start hi = true →
      KL.toTemperature_3_1 buf start hi = KL.temperature_NP) ∧
    (∀ start hi, KL.isErr3 buf start hi = false → KL.isOFL3 buf start hi = true →
      KL.toTemperature_3_1 buf start hi = KL.temperature_OFL) := by
  refine ⟨?_, ?_, ?_, ?_, ?_⟩
  · exact KL.toTemperature_cases buf hb _ false
  · exact KL.toTemperature_cases buf hb _ true
  · exact KL.toTemperature_cases buf hb _ false
  · exact fun start hi he => KL.toTemperature_of_err buf start hi he
  · exact fun start hi he ho => KL.toTemperature_of_ofl buf start hi he ho

set_option maxRecDepth 4000 in
/-- Witness for C4: channel 0 of the all-zero 229-byte current-weather frame
(every temperature decodes to 00.0 - 40 = -40, in range). -/
theorem C4_temperature_range_witness :
    (KL.currentTempMax (List.replicate 229 0) 0 = KL.temperature_NP ∨
     KL.currentTempMax (List.replicate 229 0) 0 = KL.temperature_OFL ∨
     (-40 ≤ KL.currentTempMax (List.replicate 229 0) 0 ∧
      KL.currentTempMax (List.replicate 229 0) 0 ≤ 96)) ∧
    (KL.currentTempMin (List.replicate 229 0) 0 = KL.temperature_NP ∨
     KL.currentTempMin (List.replicate 229 0) 0 = KL.temperature_OFL ∨
     (-40 ≤ KL.currentTempMin (List.replicate 229 0) 0 ∧
      KL.currentTempMin (List.replicate 229 0) 0 ≤ 96)) ∧
    (KL.currentTemp (List.replicate 229 0) 0 = KL.temperature_NP ∨
     KL.currentTemp (List.replicate 229 0) 0 = KL.temperature_OFL ∨
     (-40 ≤ KL.currentTemp (List.replicate 229 0) 0 ∧
      KL.currentTemp (List.replicate 229 0) 0 ≤ 96)) ∧
    (∀ start hi, KL.isErr3 (List.replicate 229 0) start hi = true →
      KL.toTemperature_3_1 (List.replicate 229 0) start hi = KL.temperature_NP) ∧
    (∀ start hi, KL.isErr3 (List.replicate 229 0) start hi = false →
      KL.isOFL3 (List.replicate 229 0) start hi = true →
      KL.toTemperature_3_1 (List.replicate 229 0) start hi = KL.temperature_OFL) :=
  C4_temperature_range (List.replicate 229 0) (by decide) 0 (by decide)

/-- C8: whenever the 8 nibbles at the given offset form the error pattern
recognised by isErr8 (either alignment), and also on the literal byte
rendering AA 4A AA 4A of that pattern and its low-nibble variant, the 8-nibble
date-time decoder returns the absent result rather than a decoded calendar
date-time. -/
theorem C8_datetime8_error_absent :
    (∀ (buf : List Nat) (start : Nat) (hi : Bool),
      KL.isErr8 buf start hi = true → KL.toDateTime8 buf start hi = none) ∧
    (∀ (buf : List Nat) (start : Nat),
      KL.hiNib buf start = 10 → KL.loNib buf start = 10 →
      KL.hiNib buf (start + 1) = 4 → KL.loNib buf (start + 1) = 10 →
      KL.hiNib buf (start + 2) = 10 → KL.loNib buf (start + 2) = 10 →
      KL.hiNib buf (start + 3) = 4 → KL.loNib buf (start + 3) = 10 →
      KL.toDateTime8 buf start true = none) ∧
    (∀ (buf : List Nat) (start : Nat),
      KL.loNib buf start = 10 → KL.hiNib buf (start + 1) = 10 →
      KL.loNib buf (start + 1) = 4 → KL.hiNib buf (start + 2) = 10 →
      KL.loNib buf (start + 2) = 10 → KL.hiNib buf (start + 3) = 10 →
      KL.loNib buf (start + 3) = 4 → KL.hiNib buf (start + 4) = 10 →
      KL.toDateTime8 buf start false = none) := by
  refine ⟨?_, ?_, ?_⟩
  · intro buf start hi he
    unfold KL.toDateTime8
    rw [he]
    simp
  · intro buf start h1 h2 h3 h4 h5 h6 h7 h8
    unfold KL.toDateTime8 KL.isErr8 KL.toInt_1 KL.toInt_2 KL.validDateTime KL.daysInMonth
    simp [h1, h2, h3, h4, h5, h6, h7, h8]
  · intro buf start h1 h2 h3 h4 h5 h6 h7 h8
    unfold KL.toDateTime8 KL.isErr8 KL.toInt_1 KL.toInt_2 KL.validDateTime KL.daysInMonth
    simp [h1, h2, h3, h4, h5, h6, h7, h8]

/-- Witness for C8: concrete buffers carrying the isErr8 pattern (hi
alignment), the literal AA 4A AA 4A rendering (hi), and its low-nibble
variant, all decode to absent. -/
theorem C8_datetime8_error_absent_witness :
    KL.toDateTime8 [0xAA, 0x4A, 0xA4, 0xAA] 0 true = none ∧
    KL.toDateTime8 [0xAA, 0x4A, 0xAA, 0x4A] 0 true = none ∧
    KL.toDateTime8 [0x0A, 0xA4, 0xAA, 0xA4, 0xA0] 0 false = none :=
  ⟨C8_datetime8_error_absent.1 [0xAA, 0x4A, 0xA4, 0xAA] 0 true (by decide),
   C8_datetime8_error_absent.2.1 [0xAA, 0x4A, 0xAA, 0x4A] 0 (by decide) (by decide)
     (by decide) (by decide) (by decide) (by decide) (by decide) (by decide),
   C8_datetime8_error_absent.2.2 [0x0A, 0xA4, 0xAA, 0xA4, 0xA0] 0 (by decide) (by decide)
     (by decide) (by decide) (by decide) (by decide) (by decide) (by decide)⟩

namespace KL

/-- Source kl.py getFrequency: US maps to 905000000, EU to 868300000, anything
else logs an error and falls back to the US frequency. -/
def getFrequency (standard : String) : Nat :=
  if standard = "US" then 905000000
  else if standard = "EU" then 868300000
  else 905000000

/-- Source kl.py initTransceiver: freqVal = long(freq / 16000000.0 * 16777216.0).
The source evaluates this in IEEE double arithmetic; for both base frequencies
produced by getFrequency the double computation yields exactly the integer
floor of freq * 16777216 / 16000000 (905000000 gives 948961280 exactly, and
868300000 gives 910478540, where the double rounding error of about 1e-7 on
910478540.8 cannot cross an integer), so it is embedded as exact floor
division. -/
def freqVal0 (freq : Nat) : Nat :=
  freq * 16777216 / 16000000

/-- Source kl.py initTransceiver: corVal assembled big-endian and unsigned from
the 4 bytes read from configuration flash address 0x1F5
(corVal = b0 << 8; |= b1; <<= 8; |= b2; <<= 8; |= b3). -/
def corVal (c0 c1 c2 c3 : Nat) : Nat :=
  ((((c0 <<< 8) ||| c1) <<< 8) ||| c2) <<< 8 ||| c3

/-- Source kl.py initTransceiver: freqVal += corVal; if not (freqVal % 2):
freqVal += 1. -/
def freqVal (standard : String) (c0 c1 c2 c3 : Nat) : Nat :=
  let fv := freqVal0 (getFrequency standard) + corVal c0 c1 c2 c3
  if fv % 2 = 0 then fv + 1 else fv

/-- Source kl.py initTransceiver: the four bytes written to the FREQ3..FREQ0
radio registers, (freqVal >> 24) & 0xFF down to freqVal & 0xFF. -/
def freqRegs (standard : String) (c0 c1 c2 c3 : Nat) : Nat × Nat × Nat × Nat :=
  let fv := freqVal standard c0 c1 c2 c3
  ((fv >>> 24) &&& 0xFF, (fv >>> 16) &&& 0xFF, (fv >>> 8) &&& 0xFF, fv &&& 0xFF)

/-- Modelled from the spec (the refinement target of claim C9, not from the
source): frequency register value = floor(base_freq * 2^24 / 16000000) plus
the 4-byte factory correction interpreted as a big-endian SIGNED 32-bit
integer, then plus 1 exactly when the result is even. -/
def specFreqReg (standard : String) (c0 c1 c2 c3 : Nat) : Int :=
  let u : Int := (c0 : Int) * 2 ^ 24 + (c1 : Int) * 2 ^ 16 + (c2 : Int) * 2 ^ 8 + (c3 : Int)
  let corr : Int := if u < 2 ^ 31 then u else u - 2 ^ 32
  let v : Int := ((getFrequency standard : Int) * 2 ^ 24) / 16000000 + corr
  if v % 2 = 0 then v + 1 else v

theorem corVal_eq (c0 c1 c2 c3 : Nat) (h1 : c1 < 256) (h2 : c2 < 256) (h3 : c3 < 256) :
    corVal c0 c1 c2 c3 = c0 * 16777216 + c1 * 65536 + c2 * 256 + c3 := by
  unfold corVal
  rw [shiftLeft8_or_eq c0 c1 h1, shiftLeft8_or_eq _ c2 h2, shiftLeft8_or_eq _ c3 h3]
  ring

theorem regs_recomb (fv : Nat) :
    ((fv >>> 24) &&& 0xFF) * 16777216 + ((fv >>> 16) &&& 0xFF) * 65536 +
      ((fv >>> 8) &&& 0xFF) * 256 + (fv &&& 0xFF) = fv % 4294967296 := by
  have e24 := shiftRight_and255 fv 24
  have e16 := shiftRight_and255 fv 16
  have e8 := shiftRight_and255 fv 8
  have e0 := and255_eq_mod fv
  norm_num at e24 e16 e8
  rw [e24, e16, e8, e0]
  omega

theorem freqVal0_floor (standard : String) :
    ((getFrequency standard : Int) * 2 ^ 24) / 16000000 =
      ((freqVal0 (getFrequency standard) : Nat) : Int) := by
  unfold freqVal0
  push_cast
  norm_num

end KL

/-- C9: the 32-bit frequency register word programmed by initTransceiver
(FREQ3..FREQ0, big-endian) equals, modulo 2^32, the value
floor(base_freq * 2^24 / 16000000) plus the 4-byte factory frequency
correction from flash address 0x1F5 read as a big-endian signed 32-bit
integer, incremented by 1 exactly when that sum is even (base_freq being
905000000 for US and 868300000 for EU).  The source adds the correction
unsigned; the two agree on the programmed register bytes. -/
theorem C9_frequency_register (standard : String) (c0 c1 c2 c3 : Nat)
    (h0 : c0 < 256) (h1 : c1 < 256) (h2 : c2 < 256) (h3 : c3 < 256) :
    ((KL.freqRegs standard c0 c1 c2 c3).1 : Int) * 16777216 +
      ((KL.freqRegs standard c0 c1 c2 c3).2.1 : Int) * 65536 +
      ((KL.freqRegs standard c0 c1 c2 c3).2.2.1 : Int) * 256 +
      ((KL.freqRegs standard c0 c1 c2 c3).2.2.2 : Int) =
      KL.specFreqReg standard c0 c1 c2 c3 % 4294967296 := by
  have hrec : ((KL.freqRegs standard c0 c1 c2 c3).1 : Nat) * 16777216 +
      (KL.freqRegs standard c0 c1 c2 c3).2.1 * 65536 +
      (KL.freqRegs standard c0 c1 c2 c3).2.2.1 * 256 +
      (KL.freqRegs standard c0 c1 c2 c3).2.2.2 =
      KL.freqVal standard c0 c1 c2 c3 % 4294967296 := by
    unfold KL.freqRegs
    exact KL.regs_recomb _
  have hgoal : (((KL.freqVal standard c0 c1 c2 c3 % 4294967296 : Nat)) : Int) =
      KL.specFreqReg standard c0 c1 c2 c3 % 4294967296 := by
    unfold KL.freqVal KL.specFreqReg
    rw [KL.corVal_eq c0 c1 c2 c3 h1 h2 h3, KL.freqVal0_floor standard]
    set F : Nat := KL.freqVal0 (KL.getFrequency standard) with hF
    push_cast
    split_ifs with hp1 hp2 hp3 hp4 hp5 hp6 <;> push_cast <;> omega
  rw [← hgoal, ← hrec]
  push_cast
  ring

/-- Witness for C9 at the EU standard with correction bytes FF FF FF FE
(signed value -2). -/
theorem C9_frequency_register_witness :
    ((KL.freqRegs "EU" 255 255 255 254).1 : Int) * 16777216 +
      ((KL.freqRegs "EU" 255 255 255 254).2.1 : Int) * 65536 +
      ((KL.freqRegs "EU" 255 255 255 254).2.2.1 : Int) * 256 +
      ((KL.freqRegs "EU" 255 255 255 254).2.2.2 : Int) =
      KL.specFreqReg "EU" 255 255 255 254 % 4294967296 :=
  C9_frequency_register "EU" 255 255 255 254 (by decide) (by decide) (by decide)
    (by decide)

namespace KL

/-- Source kl.py EAction.aGetHistory. -/
def aGetHistory : Nat := 0

/-- Source kl.py EAction.aReqSetTime. -/
def aReqSetTime : Nat := 1

/-- Source kl.py EAction.aReqSetConfig. -/
def aReqSetConfig : Nat := 2

/-- Source kl.py EAction.aGetConfig. -/
def aGetConfig : Nat := 3

/-- Source kl.py EAction.aGetCurrent. -/
def aGetCurrent : Nat := 4

/-- Source kl.py EAction.aSendTime. -/
def aSendTime : Nat := 0x60

/-- Source kl.py EResponseType.rtDataWritten. -/
def rtDataWritten : Nat := 0x10

/-- Source kl.py EResponseType.rtGetConfig. -/
def rtGetConfig : Nat := 0x20

/-- Source kl.py EResponseType.rtGetCurrentWeather. -/
def rtGetCurrentWeather : Nat := 0x30

/-- Source kl.py EResponseType.rtGetHistory. -/
def rtGetHistory : Nat := 0x40

/-- Source kl.py EResponseType.rtRequest. -/
def rtRequest : Nat := 0x50

/-- Source kl.py EResponseType.rtReqFirstConfig. -/
def rtReqFirstConfig : Nat := 0x51

/-- Source kl.py EResponseType.rtReqSetConfig. -/
def rtReqSetConfig : Nat := 0x52

/-- Source kl.py EResponseType.rtReqSetTime. -/
def rtReqSetTime : Nat := 0x53

/-- Python time.localtime tuple fields tm[0]..tm[6] (wday: 0 = Monday). -/
structure Tm where
  year : Nat
  month : Nat
  day : Nat
  hour : Nat
  minute : Nat
  sec : Nat
  wday : Nat
  deriving DecidableEq, Repr

/-- The mutable engine state of kl.py reachable from the RF handlers: the
CDataStore fields the handlers read or write (device identity, pairing,
communication interval, timestamps, history cursors, StationConfig checksums)
plus the wall clock (int(time.time()) and its localtime decomposition) at the
moment the frame is handled.  The observation and history record stores are
outside the modelled state; no claim refers to their contents. -/
structure KLState where
  deviceID : Nat
  registeredDeviceID : Option Nat
  commModeInterval : Nat
  command : Option Nat
  lastWeatherTs : Int
  latestHistoryIndex : Option Int
  lastHistoryIndex : Option Int
  inBufCS : Nat
  outBufCS : Nat
  resetMinMaxFlags : Option Nat
  now : Int
  tm : Tm
  deriving DecidableEq, Repr

/-- Source kl.py buildACKFrame: the history index defaulting, hidx = None
falling back to DataStore.getLatestHistoryIndex() when that is not None. -/
def effectiveHistoryIndex (s : KLState) (hidx : Option Int) : Option Int :=
  match hidx with
  | none => s.latestHistoryIndex
  | some i => some i

/-- Source kl.py buildACKFrame address resolution: haddr = 0xffffff when the
effective index is None, negative or at least max_records, else
index_to_addr(hidx) (nonnegative in that branch, hence the toNat). -/
def resolveHistoryAddress (hidx1 : Option Int) : Nat :=
  match hidx1 with
  | none => 0xFFFFFF
  | some i =>
      if i < 0 ∨ (max_records : Int) ≤ i then 0xFFFFFF
      else (index_to_addr i).toNat

/-- Source kl.py CCommunicationService.buildACKFrame(buf, action, cs, hidx):
builds the 11-byte ack, morphing a GetHistory action into GetCurrent when the
pending command is GetHistory, the last weather frame is at least
2*(commInt+1) seconds old and byte 1 of the inbound buffer is not 0xF0;
the history address is index_to_addr of the effective index when that index
lies in [0, max_records), else 0xFFFFFF. -/
def buildACKFrame (s : KLState) (buf : List Nat) (action cs : Nat)
    (hidx : Option Int) : List Nat :=
  let action1 :=
    if s.command = some aGetHistory ∧ action = aGetHistory ∧
        ((s.commModeInterval : Int) + 1) * 2 ≤ s.now - s.lastWeatherTs ∧
        byteAt buf 1 ≠ 0xF0
    then aGetCurrent else action
  let haddr : Nat := resolveHistoryAddress (effectiveHistoryIndex s hidx)
  [byteAt buf 0, byteAt buf 1, 0, action1 &&& 0xF, (cs >>> 8) &&& 0xFF,
   cs &&& 0xFF, 0x80, s.commModeInterval &&& 0xFF, (haddr >>> 16) &&& 0xFF,
   (haddr >>> 8) &&& 0xFF, haddr &&& 0xFF]

/-- Source kl.py buildFirstConfigFrame(buf, cs): fixed 11-byte frame with id
F0 F0 FF, action aGetConfig, checksum field FF FF and history address
0x010700. -/
def buildFirstConfigFrame (s : KLState) : List Nat :=
  [0xF0, 0xF0, 0xFF, aGetConfig, 0xFF, 0xFF, 0x80, s.commModeInterval &&& 0xFF,
   (0x010700 >>> 16) &&& 0xFF, (0x010700 >>> 8) &&& 0xFF, 0x010700 &&& 0xFF]

/-- Source kl.py buildTimeFrame(buf, cs): writes the 13-byte send-time frame
into the buffer (bytes 3..12), two-digit fields packed as lo + 0x10 * hi.
Python evaluates tm[0] - 2000 on the localtime year; wall-clock years are
at least 1970 and in any reachable use at least 2000. -/
def buildTimeFrame (s : KLState) (buf : List Nat) (cs : Nat) : List Nat :=
  let b := setByte buf 3 aSendTime
  let b := setByte b 4 ((cs >>> 8) &&& 0xFF)
  let b := setByte b 5 (cs &&& 0xFF)
  let b := setByte b 6 (s.tm.sec % 10 + 0x10 * (s.tm.sec / 10))
  let b := setByte b 7 (s.tm.minute % 10 + 0x10 * (s.tm.minute / 10))
  let b := setByte b 8 (s.tm.hour % 10 + 0x10 * (s.tm.hour / 10))
  let b := setByte b 9 (s.tm.wday % 10 + 0x10 * (s.tm.day % 10))
  let b := setByte b 10 (s.tm.day / 10 + 0x10 * (s.tm.month % 10))
  let b := setByte b 11 (s.tm.month / 10 + 0x10 * ((s.tm.year - 2000) % 10))
  setByte b 12 ((s.tm.year - 2000) / 10)

/-- Outcome of one generateResponse call: normal completion, or one of the
exceptions the call can raise (BadResponse, the DataWritten control-flow
signal, or the NameError from the undefined variable newlength in
handleConfig). -/
inductive PyOutcome where
  | ok : PyOutcome
  | badResponse : PyOutcome
  | dataWritten : PyOutcome
  | nameError : PyOutcome
  deriving DecidableEq, Repr

/-- Result of generateResponse: outcome, state after the call, and the
outbound frame and length handed back through the buf/length containers. -/
structure GenResult where
  outcome : PyOutcome
  state : KLState
  outBuf : List Nat
  outLen : Nat
  deriving DecidableEq, Repr

/-- Source kl.py CCommunicationService.handleConfig: reads StationConfig from
the frame, refreshes the connection stats, builds a GetHistory ack, then
evaluates the undefined name newlength (length[0] = newlength[0]) and so
raises NameError. -/
def handleConfig (s : KLState) (buf : List Nat) (len : Nat) : GenResult :=
  let cfg := StationConfig_read buf
  let s1 := { s with inBufCS := cfg.1, outBufCS := cfg.2 }
  let cs := byteAt buf 47 ||| (byteAt buf 46 <<< 8)
  let ack := buildACKFrame s1 buf aGetHistory cs none
  { outcome := .nameError, state := s1, outBuf := ack, outLen := len }

/-- Source kl.py CCommunicationService.handleCurrentData: updates
last_weather_ts via setLastStatCache (the CurrentData store replacement is
outside the modelled state), then picks GetConfig when the echoed config
checksum cs is 0 (the source compares cs with itself, so only cs == 0 selects
GetConfig), ReqSetConfig when testConfigChanged (always 0 in the source), else
GetHistory. -/
def handleCurrentData (s : KLState) (buf : List Nat) (len : Nat) : GenResult :=
  let s1 := { s with lastWeatherTs := s.now }
  let cs := byteAt buf 6 ||| (byteAt buf 5 <<< 8)
  let inBufCS := cs
  let changed := 0
  if inBufCS = 0 ∨ inBufCS ≠ cs then
    { outcome := .ok, state := s1, outBuf := buildACKFrame s1 buf aGetConfig cs none,
      outLen := 11 }
  else if changed ≠ 0 then
    { outcome := .ok, state := s1, outBuf := buildACKFrame s1 buf aReqSetConfig cs none,
      outLen := 11 }
  else
    { outcome := .ok, state := s1, outBuf := buildACKFrame s1 buf aGetHistory cs none,
      outLen := 11 }

/-- Source kl.py CCommunicationService.handleHistoryData: decodes the two
24-bit addresses, stores this and latest history indices, and acks GetHistory
with nextIndex = latestIndex (the shipped source never walks the outstanding
window).  The CHistoryData record decode populates the history store, which is
outside the modelled state. -/
def handleHistoryData (s : KLState) (buf : List Nat) (len : Nat) : GenResult :=
  let cs := byteAt buf 6 ||| (byteAt buf 5 <<< 8)
  let latestAddr := bytes_to_addr (byteAt buf 7) (byteAt buf 8) (byteAt buf 9)
  let thisAddr := bytes_to_addr (byteAt buf 10) (byteAt buf 11) (byteAt buf 12)
  let latestIndex := addr_to_index (latestAddr : Int)
  let thisIndex := addr_to_index (thisAddr : Int)
  let s1 := { s with lastHistoryIndex := some thisIndex,
                     latestHistoryIndex := some latestIndex }
  let nextIndex := latestIndex
  { outcome := .ok, state := s1,
    outBuf := buildACKFrame s1 buf aGetHistory cs (some nextIndex), outLen := 11 }

/-- Source kl.py CCommunicationService.handleNextAction: dispatch on byte 3 of
the request frame; 0x51 answers with the first-config frame, 0x52 is ignored
in favour of a GetHistory ack, 0x53 builds a time frame into the buffer and
then immediately overwrites the response with a GetHistory ack, anything else
acks GetHistory. -/
def handleNextAction (s : KLState) (buf : List Nat) (len : Nat) : GenResult :=
  let cs := byteAt buf 6 ||| (byteAt buf 5 <<< 8)
  if byteAt buf 3 = rtReqFirstConfig then
    { outcome := .ok, state := s, outBuf := buildFirstConfigFrame s, outLen := 11 }
  else if byteAt buf 3 = rtReqSetConfig then
    { outcome := .ok, state := s, outBuf := buildACKFrame s buf aGetHistory cs none,
      outLen := 11 }
  else if byteAt buf 3 = rtReqSetTime then
    let tbuf := buildTimeFrame s buf cs
    { outcome := .ok, state := s, outBuf := buildACKFrame s tbuf aGetHistory cs none,
      outLen := 11 }
  else
    { outcome := .ok, state := s, outBuf := buildACKFrame s buf aGetHistory cs none,
      outLen := 11 }

/-- Source kl.py CCommunicationService.generateResponse: classify the inbound
frame by device id and response type (byte 3 & 0xF0 of the stripped frame) and
dispatch; setRegisteredDeviceID(bufferID) is called exactly when the id is not
0xF0F0; an id of 0xF0F0 is answered with an aGetConfig ack carrying the
dongle deviceID as checksum field and history index 0xFFFF. -/
def generateResponse (s : KLState) (buf : List Nat) (len : Nat) : GenResult :=
  if len = 0 then { outcome := .badResponse, state := s, outBuf := buf, outLen := len }
  else
    let bufferID := (byteAt buf 0 <<< 8) ||| byteAt buf 1
    let respType := byteAt buf 3 &&& 0xF0
    let deviceID := s.deviceID
    let s1 := if bufferID ≠ 0xF0F0 then { s with registeredDeviceID := some bufferID }
      else s
    if bufferID = 0xF0F0 then
      { outcome := .ok, state := s1,
        outBuf := buildACKFrame s1 buf aGetConfig deviceID (some 0xFFFF), outLen := 11 }
    else if bufferID = deviceID then
      if respType = rtDataWritten then
        if len = 0x07 then
          { outcome := .dataWritten, state := { s1 with resetMinMaxFlags := some 0 },
            outBuf := buf, outLen := len }
        else { outcome := .badResponse, state := s1, outBuf := buf, outLen := len }
      else if respType = rtGetConfig then
        if len = 0x7d then handleConfig s1 buf len
        else { outcome := .badResponse, state := s1, outBuf := buf, outLen := len }
      else if respType = rtGetCurrentWeather then
        if len = 0xe5 then handleCurrentData s1 buf len
        else { outcome := .badResponse, state := s1, outBuf := buf, outLen := len }
      else if respType = rtGetHistory then
        if len = 0xb5 then handleHistoryData s1 buf len
        else { outcome := .badResponse, state := s1, outBuf := buf, outLen := len }
      else if respType = rtRequest then
        if len = 0x07 then handleNextAction s1 buf len
        else { outcome := .badResponse, state := s1, outBuf := buf, outLen := len }
      else { outcome := .badResponse, state := s1, outBuf := buf, outLen := len }
    else if ¬(respType = 0x10 ∨ respType = 0x20 ∨ respType = 0x30 ∨
        respType = 0x40 ∨ respType = 0x51 ∨ respType = 0x52 ∨ respType = 0x53) then
      { outcome := .badResponse, state := s1, outBuf := buf, outLen := len }
    else
      { outcome := .badResponse, state := s1, outBuf := buf, outLen := len }

/-- Source kl.py doRFCommunication wraps generateResponse in
try/except BadResponse/except DataWritten: those two outcomes (and normal
completion) let the RF loop proceed to setTX and its next iteration; any other
exception escapes to doRF, which sets running = False and re-raises, so the
loop stops. -/
def rfLoopProceeds : PyOutcome → Bool
  | .ok => true
  | .badResponse => true
  | .dataWritten => true
  | .nameError => false

end KL

namespace KL

/-- Concrete engine state used by the closed evaluations: a console paired to
dongle id 0x0107 (the id appearing in the source's frame dumps). -/
def testState : KLState :=
  { deviceID := 0x0107, registeredDeviceID := some 0x0107, commModeInterval := 3,
    command := none, lastWeatherTs := 0, latestHistoryIndex := none,
    lastHistoryIndex := none, inBufCS := 0, outBufCS := 0,
    resetMinMaxFlags := none, now := 1000,
    tm := { year := 2014, month := 8, day := 27, hour := 21, minute := 32,
            sec := 0, wday := 2 } }

/-- A well-formed 125-byte config frame (stripped of the 3-byte USB header)
from the paired console 0x0107: response type byte 0x20, link quality 0x64. -/
def configFrame : List Nat :=
  ((((List.replicate 125 0).set 0 0x01).set 1 0x07).set 3 0x20).set 4 0x64

/-- The stripped 7-byte request-first-config broadcast frame
(raw 00 00 07 F0 F0 FF 51 64 FF FF). -/
def pairFrame : List Nat :=
  [0xF0, 0xF0, 0xFF, 0x51, 0x64, 0xFF, 0xFF]

/-- The test state before pairing: no registered console id yet. -/
def unpairedState : KLState :=
  { testState with registeredDeviceID := none }

end KL

/-- C1 (divergence witness): on a well-formed 125-byte config frame, response
type 0x20, from the paired console, generateResponse neither completes
normally nor raises BadResponse or DataWritten: handleConfig raises NameError
on the undefined variable newlength, the RF loop catches only BadResponse and
DataWritten, and doRF then stops the thread instead of proceeding to the next
iteration. -/
theorem C1_config_frame_name_error :
    (KL.generateResponse KL.testState KL.configFrame 0x7d).outcome =
      KL.PyOutcome.nameError ∧
    KL.rfLoopProceeds (KL.generateResponse KL.testState KL.configFrame 0x7d).outcome
      = false := by
  constructor
  · decide
  · decide

/-- C2 counterexample: on the request-first-config broadcast (device-id field
0xF0F0) the engine does NOT set registered_device_id: generateResponse calls
setRegisteredDeviceID only for ids different from 0xF0F0, so after processing
the broadcast from an unpaired state the registered id is still None and not
the dongle id 0x0107. -/
theorem C2_counterexample :
    (KL.generateResponse KL.unpairedState KL.pairFrame 7).state.registeredDeviceID ≠
      some KL.unpairedState.deviceID := by
  decide

/-- Helper: the ack frame generateResponse builds for an 0xF0F0 broadcast. -/
theorem ackFrame_f0f0 (s : KL.KLState) (buf : List Nat) :
    KL.buildACKFrame s buf KL.aGetConfig s.deviceID (some 0xFFFF) =
      [KL.byteAt buf 0, KL.byteAt buf 1, 0, 3, (s.deviceID >>> 8) &&& 0xFF,
       s.deviceID &&& 0xFF, 0x80, s.commModeInterval &&& 0xFF, 0xFF, 0xFF, 0xFF] := by
  unfold KL.buildACKFrame
  have hcond : ¬(s.command = some KL.aGetHistory ∧ KL.aGetConfig = KL.aGetHistory ∧
      ((s.commModeInterval : Int) + 1) * 2 ≤ s.now - s.lastWeatherTs ∧
      KL.byteAt buf 1 ≠ 0xF0) := by
    intro h
    exact absurd h.2.1 (by decide)
  rw [if_neg hcond]
  simp only [KL.effectiveHistoryIndex, KL.resolveHistoryAddress, KL.aGetConfig,
    KL.max_records]
  norm_num
  decide

/-- C2 (amended): on an inbound frame whose device-id field is 0xF0F0 the
engine leaves registered_device_id unchanged (pairing state is recorded only
when a later frame arrives carrying the adopted id) and replies with an
11-byte aGetConfig ack whose action byte is 0x03, whose checksum field carries
the dongle deviceID big-endian, and whose three history-address bytes are
FF FF FF. -/
theorem C2_pairing_reply (s : KL.KLState) (buf : List Nat) (len : Nat)
    (hlen : len ≠ 0) (h0 : KL.byteAt buf 0 = 0xF0) (h1 : KL.byteAt buf 1 = 0xF0)
    (hdev : s.deviceID < 65536) :
    (KL.generateResponse s buf len).outcome = KL.PyOutcome.ok ∧
    (KL.generateResponse s buf len).state.registeredDeviceID = s.registeredDeviceID ∧
    (KL.generateResponse s buf len).outLen = 11 ∧
    KL.byteAt (KL.generateResponse s buf len).outBuf 3 = 0x03 ∧
    KL.byteAt (KL.generateResponse s buf len).outBuf 4 * 256 +
      KL.byteAt (KL.generateResponse s buf len).outBuf 5 = s.deviceID ∧
    KL.byteAt (KL.generateResponse s buf len).outBuf 8 = 0xFF ∧
    KL.byteAt (KL.generateResponse s buf len).outBuf 9 = 0xFF ∧
    KL.byteAt (KL.generateResponse s buf len).outBuf 10 = 0xFF := by
  have hid : (KL.byteAt buf 0 <<< 8) ||| KL.byteAt buf 1 = 0xF0F0 := by
    rw [h0, h1]
    decide
  have hgen : KL.generateResponse s buf len =
      { outcome := .ok, state := s,
        outBuf := KL.buildACKFrame s buf KL.aGetConfig s.deviceID (some 0xFFFF),
        outLen := 11 } := by
    unfold KL.generateResponse
    rw [if_neg hlen]
    simp only [hid]
    norm_num
  rw [hgen, ackFrame_f0f0]
  refine ⟨rfl, rfl, rfl, rfl, ?_, rfl, rfl, rfl⟩
  show ((s.deviceID >>> 8) &&& 0xFF) * 256 + (s.deviceID &&& 0xFF) = s.deviceID
  rw [KL.shiftRight_and255, KL.and255_eq_mod]
  norm_num
  omega

/-- Witness for C2 (amended) on the concrete broadcast frame and unpaired
test state. -/
theorem C2_pairing_reply_witness :
    (KL.generateResponse KL.unpairedState KL.pairFrame 7).outcome = KL.PyOutcome.ok ∧
    (KL.generateResponse KL.unpairedState KL.pairFrame 7).state.registeredDeviceID =
      KL.unpairedState.registeredDeviceID ∧
    (KL.generateResponse KL.unpairedState KL.pairFrame 7).outLen = 11 ∧
    KL.byteAt (KL.generateResponse KL.unpairedState KL.pairFrame 7).outBuf 3 = 0x03 ∧
    KL.byteAt (KL.generateResponse KL.unpairedState KL.pairFrame 7).outBuf 4 * 256 +
      KL.byteAt (KL.generateResponse KL.unpairedState KL.pairFrame 7).outBuf 5 =
      KL.unpairedState.deviceID ∧
    KL.byteAt (KL.generateResponse KL.unpairedState KL.pairFrame 7).outBuf 8 = 0xFF ∧
    KL.byteAt (KL.generateResponse KL.unpairedState KL.pairFrame 7).outBuf 9 = 0xFF ∧
    KL.byteAt (KL.generateResponse KL.unpairedState KL.pairFrame 7).outBuf 10 = 0xFF :=
  C2_pairing_reply KL.unpairedState KL.pairFrame 7 (by decide) (by decide) (by decide)
    (by decide)

namespace KL

theorem byteAt_nth3 (x0 x1 x2 x3 x4 x5 x6 x7 x8 x9 x10 : Nat) :
    byteAt [x0, x1, x2, x3, x4, x5, x6, x7, x8, x9, x10] 3 = x3 := rfl

theorem byteAt_nth8 (x0 x1 x2 x3 x4 x5 x6 x7 x8 x9 x10 : Nat) :
    byteAt [x0, x1, x2, x3, x4, x5, x6, x7, x8, x9, x10] 8 = x8 := rfl

theorem byteAt_nth9 (x0 x1 x2 x3 x4 x5 x6 x7 x8 x9 x10 : Nat) :
    byteAt [x0, x1, x2, x3, x4, x5, x6, x7, x8, x9, x10] 9 = x9 := rfl

theorem byteAt_nth10 (x0 x1 x2 x3 x4 x5 x6 x7 x8 x9 x10 : Nat) :
    byteAt [x0, x1, x2, x3, x4, x5, x6, x7, x8, x9, x10] 10 = x10 := rfl

end KL

/-- C6: if the pending command is GetHistory, the requested ack action is
GetHistory, the last current-weather timestamp is older than 2*(commInt+1)
seconds, and byte 1 of the inbound buffer is not 0xF0, then buildACKFrame
writes action code 0x04 (GetCurrent) into byte 3 of the outbound ack. -/
theorem C6_stale_weather_morph (s : KL.KLState) (buf : List Nat) (cs : Nat)
    (hidx : Option Int) (hcmd : s.command = some KL.aGetHistory)
    (hage : ((s.commModeInterval : Int) + 1) * 2 < s.now - s.lastWeatherTs)
    (hb1 : KL.byteAt buf 1 ≠ 0xF0) :
    KL.byteAt (KL.buildACKFrame s buf KL.aGetHistory cs hidx) 3 = 0x04 := by
  unfold KL.buildACKFrame
  rw [if_pos ⟨hcmd, rfl, le_of_lt hage, hb1⟩]
  rw [KL.byteAt_nth3]
  decide

/-- Witness for C6: last_weather_ts = now - 40, commInt = 6, inbound byte 1 is
0x07; the emitted action byte is 0x04. -/
theorem C6_stale_weather_morph_witness :
    KL.byteAt (KL.buildACKFrame
      { KL.testState with
          command := some KL.aGetHistory
          commModeInterval := 6
          lastWeatherTs := 960 } KL.configFrame KL.aGetHistory 0x1ab1 none) 3 = 0x04 :=
  C6_stale_weather_morph _ KL.configFrame 0x1ab1 none rfl (by decide) (by decide)

/-- C10: the three history-address bytes (offsets 8..10) of every ack built by
buildACKFrame equal the big-endian encoding of 32 * hidx + 0x070000 when the
effective history index hidx (the argument, defaulting to the stored latest
history index when omitted) is an integer in [0, 60000), and equal FF FF FF
whenever the effective index is None or outside that range. -/
theorem C10_ack_history_address (s : KL.KLState) (buf : List Nat)
    (action cs : Nat) (hidx : Option Int) :
    (∀ i : Int, KL.effectiveHistoryIndex s hidx = some i → 0 ≤ i → i < 60000 →
      (KL.byteAt (KL.buildACKFrame s buf action cs hidx) 8 : Int) * 65536 +
        (KL.byteAt (KL.buildACKFrame s buf action cs hidx) 9 : Int) * 256 +
        (KL.byteAt (KL.buildACKFrame s buf action cs hidx) 10 : Int) =
        32 * i + 0x070000) ∧
    ((KL.effectiveHistoryIndex s hidx = none ∨
      (∃ i : Int, KL.effectiveHistoryIndex s hidx = some i ∧ (i < 0 ∨ 60000 ≤ i))) →
      KL.byteAt (KL.buildACKFrame s buf action cs hidx) 8 = 0xFF ∧
      KL.byteAt (KL.buildACKFrame s buf action cs hidx) 9 = 0xFF ∧
      KL.byteAt (KL.buildACKFrame s buf action cs hidx) 10 = 0xFF) := by
  have hb8 : KL.byteAt (KL.buildACKFrame s buf action cs hidx) 8 =
      (KL.resolveHistoryAddress (KL.effectiveHistoryIndex s hidx) >>> 16) &&& 0xFF := by
    unfold KL.buildACKFrame
    rw [KL.byteAt_nth8]
  have hb9 : KL.byteAt (KL.buildACKFrame s buf action cs hidx) 9 =
      (KL.resolveHistoryAddress (KL.effectiveHistoryIndex s hidx) >>> 8) &&& 0xFF := by
    unfold KL.buildACKFrame
    rw [KL.byteAt_nth9]
  have hb10 : KL.byteAt (KL.buildACKFrame s buf action cs hidx) 10 =
      KL.resolveHistoryAddress (KL.effectiveHistoryIndex s hidx) &&& 0xFF := by
    unfold KL.buildACKFrame
    rw [KL.byteAt_nth10]
  rw [hb8, hb9, hb10]
  constructor
  · intro i hi h0 h60
    rw [hi]
    have hcond : ¬(i < 0 ∨ (KL.max_records : Int) ≤ i) := by
      unfold KL.max_records
      push_cast
      omega
    have hres : KL.resolveHistoryAddress (some i) = (KL.index_to_addr i).toNat := by
      simp only [KL.resolveHistoryAddress]
      rw [if_neg hcond]
    rw [hres]
    have haddr : ((KL.index_to_addr i).toNat : Int) = 32 * i + 0x070000 := by
      unfold KL.index_to_addr
      omega
    have hlt : (KL.index_to_addr i).toNat < 16777216 := by
      unfold KL.index_to_addr
      omega
    rw [KL.shiftRight_and255, KL.shiftRight_and255, KL.and255_eq_mod, ← haddr]
    push_cast
    norm_num
    omega
  · intro hcase
    have hres : KL.resolveHistoryAddress (KL.effectiveHistoryIndex s hidx) = 0xFFFFFF := by
      rcases hcase with h | ⟨i, hi, hout⟩
      · rw [h]
        rfl
      · rw [hi]
        simp only [KL.resolveHistoryAddress]
        rw [if_pos]
        unfold KL.max_records
        push_cast
        omega
    rw [hres]
    exact ⟨by decide, by decide, by decide⟩

/-- Witness for C10: with stored latest index 5 and the argument omitted the
ack carries address 32 * 5 + 0x070000; with an explicit out-of-range index
70000 it carries FF FF FF. -/
theorem C10_ack_history_address_witness :
    ((KL.byteAt (KL.buildACKFrame
        { KL.testState with latestHistoryIndex := some 5 }
        KL.pairFrame 0 0x1ab1 none) 8 : Int) * 65536 +
      (KL.byteAt (KL.buildACKFrame
        { KL.testState with latestHistoryIndex := some 5 }
        KL.pairFrame 0 0x1ab1 none) 9 : Int) * 256 +
      (KL.byteAt (KL.buildACKFrame
        { KL.testState with latestHistoryIndex := some 5 }
        KL.pairFrame 0 0x1ab1 none) 10 : Int) = 32 * 5 + 0x070000) ∧
    (KL.byteAt (KL.buildACKFrame KL.testState KL.pairFrame 0 0x1ab1
        (some 70000)) 8 = 0xFF ∧
     KL.byteAt (KL.buildACKFrame KL.testState KL.pairFrame 0 0x1ab1
        (some 70000)) 9 = 0xFF ∧
     KL.byteAt (KL.buildACKFrame KL.testState KL.pairFrame 0 0x1ab1
        (some 70000)) 10 = 0xFF) :=
  ⟨(C10_ack_history_address { KL.testState with latestHistoryIndex := some 5 }
      KL.pairFrame 0 0x1ab1 none).1 5 rfl (by decide) (by decide),
   (C10_ack_history_address KL.testState KL.pairFrame 0 0x1ab1 (some 70000)).2
      (Or.inr ⟨70000, rfl, Or.inr (by decide)⟩)⟩

namespace WS

/-- The mutable state of luc/ws28xx_lheijst13.py reachable from buildTimeFrame
and buildACKFrame: the DataStore fields those functions read or write plus the
wall clock (datetime.now(), in seconds) and its localtime decomposition. -/
structure WSState where
  deviceCS : Nat
  lastHistoryIndex : Nat
  bufferCheck : Nat
  commModeInterval : Nat
  now : Int
  lastCurrentWeatherTime : Int
  regenerate : Nat
  timeSent : Nat
  tm : KL.Tm
  deriving DecidableEq, Repr

/-- Result of a luc frame-builder call: new state, buffer and frame length. -/
structure WSBuildResult where
  state : WSState
  buf : List Nat
  len : Nat
  deriving DecidableEq, Repr

/-- Source luc/ws28xx_lheijst13.py CCommunicationService.buildACKFrame
(Buffer, Action, DeviceCS, HistoryIndex, ComInt): 9-byte ack.  The
force-GetCurrent check (Action != 5 and now - LastCurrentWeatherTime >= 30 s)
sits inside the two-byte copy loop and runs twice, which is idempotent; an
Action of 0 is then promoted to 5 (never ask for a historical record).  The
history address uses Python int arithmetic, which can pass through a negative
intermediate only for 18 * (HistoryIndex - 1) with HistoryIndex = 0, a value
still nonnegative after adding 0x1a0, hence the Int computation.  A ComInt of
0xFFFFFFFF is replaced by the stored communication interval. -/
def buildACKFrame (s : WSState) (buf : List Nat)
    (action deviceCS historyIndex comInt : Nat) : WSBuildResult :=
  let action1 := if action ≠ 5 ∧ 30 ≤ s.now - s.lastCurrentWeatherTime then 5
    else action
  let action2 := if action1 = 0 then 5 else action1
  let haRes : Int × Nat :=
    if 0x705 ≤ historyIndex then (0xffffff, s.bufferCheck)
    else if s.bufferCheck ≠ 1 ∧ s.bufferCheck ≠ 2 then
      ((18 * historyIndex + 0x1a0 : Int), s.bufferCheck)
    else
      ((if historyIndex ≠ 0xffff then 18 * ((historyIndex : Int) - 1) + 0x1a0
        else 0x7fe8), 2)
  let ha : Nat := haRes.1.toNat
  let comInt1 := if comInt = 0xFFFFFFFF then s.commModeInterval else comInt
  { state := { s with bufferCheck := haRes.2, regenerate := 0, timeSent := 0 },
    buf := [KL.byteAt buf 0, KL.byteAt buf 1, action2 &&& 0xF,
      (deviceCS >>> 8) &&& 0xFF, deviceCS &&& 0xFF, (comInt1 >>> 4) &&& 0xFF,
      ((ha >>> 16) &&& 0x0F) ||| 16 * (comInt1 &&& 0xF),
      (ha >>> 8) &&& 0xFF, ha &&& 0xFF],
    len := 9 }

/-- Source luc/ws28xx_lheijst13.py CCommunicationService.buildTimeFrame
(Buffer, checkMinuteOverflow): when checkMinuteOverflow is set and the current
second (clamped to 0 above 59) is at most 5 or at least 55, reply with a
regular ack whose ComInt is the distance in seconds to six seconds past the
minute (6 - Second below 55, else 60 - Second + 6) and the last history index;
otherwise emit the 0x0c-byte send-time frame tagged 0xc0. -/
def buildTimeFrame (s : WSState) (buf : List Nat) (checkMinuteOverflow : Bool) :
    WSBuildResult :=
  let deviceCS := s.deviceCS
  let second0 := s.tm.sec
  let second := if 59 < second0 then 0 else second0
  if checkMinuteOverflow = true ∧ (second ≤ 5 ∨ 55 ≤ second) then
    let second1 := if second < 55 then 6 - second else 60 - second + 6
    buildACKFrame s buf 0 deviceCS s.lastHistoryIndex second1
  else
    let b := KL.setByte buf 2 0xc0
    let b := KL.setByte b 3 ((deviceCS >>> 8) &&& 0xFF)
    let b := KL.setByte b 4 (deviceCS &&& 0xFF)
    let b := KL.setByte b 5 (s.tm.sec % 10 + 0x10 * (s.tm.sec / 10))
    let b := KL.setByte b 6 (s.tm.minute % 10 + 0x10 * (s.tm.minute / 10))
    let b := KL.setByte b 7 (s.tm.hour % 10 + 0x10 * (s.tm.hour / 10))
    let b := KL.setByte b 8 (s.tm.wday % 10 + 0x10 * (s.tm.day % 10))
    let b := KL.setByte b 9 (s.tm.day / 10 + 0x10 * (s.tm.month % 10))
    let b := KL.setByte b 10 (s.tm.month / 10 + 0x10 * ((s.tm.year - 2000) % 10))
    let b := KL.setByte b 11 ((s.tm.year - 2000) / 10)
    { state := { s with regenerate := 1, timeSent := 1 }, buf := b, len := 0x0c }

theorem byteAt9_2 (x0 x1 x2 x3 x4 x5 x6 x7 x8 : Nat) :
    KL.byteAt [x0, x1, x2, x3, x4, x5, x6, x7, x8] 2 = x2 := rfl

theorem byteAt9_5 (x0 x1 x2 x3 x4 x5 x6 x7 x8 : Nat) :
    KL.byteAt [x0, x1, x2, x3, x4, x5, x6, x7, x8] 5 = x5 := rfl

theorem byteAt9_6 (x0 x1 x2 x3 x4 x5 x6 x7 x8 : Nat) :
    KL.byteAt [x0, x1, x2, x3, x4, x5, x6, x7, x8] 6 = x6 := rfl

end WS

namespace WS

theorem interval_decode (ha C : Nat) (hC : C < 4096) :
    ((C >>> 4) &&& 0xFF) * 16 + (((ha >>> 16) &&& 0x0F) ||| 16 * (C &&& 0xF)) / 16
      = C := by
  have hor : (((ha >>> 16) &&& 0x0F) ||| 16 * (C &&& 0xF)) =
      16 * (C &&& 0xF) + ((ha >>> 16) &&& 0x0F) := by
    rw [Nat.or_comm]
    have ha15 : (ha >>> 16) &&& 0x0F < 2 ^ 4 := by
      rw [show (0x0F : Nat) = 15 from rfl, KL.and15_eq_mod]
      norm_num
      omega
    have h := Nat.mul_add_lt_is_or (b := (ha >>> 16) &&& 0x0F) (i := 4) ha15
      (C &&& 0xF)
    norm_num at h
    exact h.symm
  rw [hor, KL.shiftRight_and255]
  rw [show (0xF : Nat) = 15 from rfl, show (0x0F : Nat) = 15 from rfl,
    KL.and15_eq_mod, KL.and15_eq_mod]
  norm_num
  omega

theorem ws_ack_getcurrent (s : WSState) (buf : List Nat)
    (deviceCS historyIndex comInt : Nat)
    (hcom : comInt ≠ 0xFFFFFFFF) (hC : comInt < 4096) :
    (buildACKFrame s buf 0 deviceCS historyIndex comInt).len = 9 ∧
    KL.byteAt (buildACKFrame s buf 0 deviceCS historyIndex comInt).buf 2 = 5 ∧
    KL.byteAt (buildACKFrame s buf 0 deviceCS historyIndex comInt).buf 5 * 16 +
      KL.byteAt (buildACKFrame s buf 0 deviceCS historyIndex comInt).buf 6 / 16
      = comInt := by
  unfold buildACKFrame
  simp only [if_neg hcom]
  by_cases hst : 30 ≤ s.now - s.lastCurrentWeatherTime
  · simp only [ne_eq, OfNat.zero_ne_ofNat, not_false_eq_true, true_and, hst,
      if_true, if_pos, reduceIte]
    refine ⟨?_, ?_⟩
    · rw [byteAt9_2]
      decide
    · rw [byteAt9_5, byteAt9_6]
      exact interval_decode _ comInt hC
  · simp only [ne_eq, OfNat.zero_ne_ofNat, not_false_eq_true, true_and, hst,
      if_false, reduceIte]
    refine ⟨?_, ?_⟩
    · rw [byteAt9_2]
      decide
    · rw [byteAt9_5, byteAt9_6]
      exact interval_decode _ comInt hC

end WS

/-- C7: when the host decides to send time (buildTimeFrame with the
minute-overflow check armed) and the current wall-clock second lies strictly
within 6 s of a whole minute boundary (second at most 5 or at least 55, after
the above-59 clamp), the sender emits a regular 9-byte ack (action byte 5, not
a 0xc0-tagged send-time frame) whose carried communication interval, recovered
from bytes 5 and 6, equals the seconds remaining until six seconds past the
minute, (66 - second) mod 60. -/
theorem C7_sendtime_quantisation (s : WS.WSState) (buf : List Nat)
    (hwin : (if 59 < s.tm.sec then 0 else s.tm.sec) ≤ 5 ∨
      55 ≤ (if 59 < s.tm.sec then 0 else s.tm.sec)) :
    (WS.buildTimeFrame s buf true).len = 9 ∧
    KL.byteAt (WS.buildTimeFrame s buf true).buf 2 = 5 ∧
    KL.byteAt (WS.buildTimeFrame s buf true).buf 5 * 16 +
      KL.byteAt (WS.buildTimeFrame s buf true).buf 6 / 16 =
      (66 - (if 59 < s.tm.sec then 0 else s.tm.sec)) % 60 := by
  have hres : WS.buildTimeFrame s buf true =
      WS.buildACKFrame s buf 0 s.deviceCS s.lastHistoryIndex
        (if (if 59 < s.tm.sec then 0 else s.tm.sec) < 55
         then 6 - (if 59 < s.tm.sec then 0 else s.tm.sec)
         else 60 - (if 59 < s.tm.sec then 0 else s.tm.sec) + 6) := by
    unfold WS.buildTimeFrame
    rw [if_pos ⟨rfl, hwin⟩]
  rw [hres]
  have hsec : (if 59 < s.tm.sec then 0 else s.tm.sec) ≤ 59 := by
    split <;> omega
  have hint : (if (if 59 < s.tm.sec then 0 else s.tm.sec) < 55
      then 6 - (if 59 < s.tm.sec then 0 else s.tm.sec)
      else 60 - (if 59 < s.tm.sec then 0 else s.tm.sec) + 6) =
      (66 - (if 59 < s.tm.sec then 0 else s.tm.sec)) % 60 := by
    rcases hwin with h | h
    · rw [if_pos (by omega)]
      omega
    · rw [if_neg (by omega)]
      omega
  rw [hint]
  exact WS.ws_ack_getcurrent s buf s.deviceCS s.lastHistoryIndex _
    (by omega) (by omega)

/-- Witness for C7 at seconds = 57: the shortened interval is 9. -/
theorem C7_sendtime_quantisation_witness :
    (WS.buildTimeFrame
      { deviceCS := 0x1ab1, lastHistoryIndex := 0xffff, bufferCheck := 0,
        commModeInterval := 3, now := 1000, lastCurrentWeatherTime := 990,
        regenerate := 0, timeSent := 0,
        tm := { year := 2014, month := 8, day := 27, hour := 21, minute := 32,
                sec := 57, wday := 2 } } KL.pairFrame true).len = 9 ∧
    KL.byteAt (WS.buildTimeFrame
      { deviceCS := 0x1ab1, lastHistoryIndex := 0xffff, bufferCheck := 0,
        commModeInterval := 3, now := 1000, lastCurrentWeatherTime := 990,
        regenerate := 0, timeSent := 0,
        tm := { year := 2014, month := 8, day := 27, hour := 21, minute := 32,
                sec := 57, wday := 2 } } KL.pairFrame true).buf 2 = 5 ∧
    KL.byteAt (WS.buildTimeFrame
      { deviceCS := 0x1ab1, lastHistoryIndex := 0xffff, bufferCheck := 0,
        commModeInterval := 3, now := 1000, lastCurrentWeatherTime := 990,
        regenerate := 0, timeSent := 0,
        tm := { year := 2014, month := 8, day := 27, hour := 21, minute := 32,
                sec := 57, wday := 2 } } KL.pairFrame true).buf 5 * 16 +
      KL.byteAt (WS.buildTimeFrame
      { deviceCS := 0x1ab1, lastHistoryIndex := 0xffff, bufferCheck := 0,
        commModeInterval := 3, now := 1000, lastCurrentWeatherTime := 990,
        regenerate := 0, timeSent := 0,
        tm := { year := 2014, month := 8, day := 27, hour := 21, minute := 32,
                sec := 57, wday := 2 } } KL.pairFrame true).buf 6 / 16 =
      (66 - (if 59 < (57 : Nat) then 0 else 57)) % 60 :=
  C7_sendtime_quantisation
    { deviceCS := 0x1ab1, lastHistoryIndex := 0xffff, bufferCheck := 0,
      commModeInterval := 3, now := 1000, lastCurrentWeatherTime := 990,
      regenerate := 0, timeSent := 0,
      tm := { year := 2014, month := 8, day := 27, hour := 21, minute := 32,
              sec := 57, wday := 2 } } KL.pairFrame (by decide)
